import Mathlib

/-!
Verification of the myfeed feed-ingestion pipeline (services/feed_service.go,
database schema in database/database.go) against its specification.

The embedding models the SQLite-backed store as an in-memory `DBState`
(lists of feed and article rows plus autoincrement counters).  Network
collaborators (the gofeed parser, the auxiliary page fetch) and storage
insert failures are supplied by an `Env` oracle; wall-clock time is
`Env.now`.  Strings are modelled as `List Char` with Go's `strings`
operations re-implemented over them.
-/

/-- Go strings are modelled as lists of characters. -/
abbrev Str := List Char

/-- Whether `pat` occurs at the start of `s` (strings.HasPrefix). -/
def leadsWith : Str → Str → Bool
  | [], _ => true
  | _ :: _, [] => false
  | p :: ps, c :: cs => p == c && leadsWith ps cs

/-- Whether `sub` occurs contiguously anywhere in `s` (strings.Contains). -/
def listContains (sub : Str) : Str → Bool
  | [] => leadsWith sub []
  | c :: rest => leadsWith sub (c :: rest) || listContains sub rest

/-- strings.ToLower, restricted to the ASCII behaviour the code relies on. -/
def toLowerL (s : Str) : Str := s.map Char.toLower

/-- strings.TrimSpace: drop leading and trailing whitespace. -/
def trimL (s : Str) : Str :=
  ((s.dropWhile Char.isWhitespace).reverse.dropWhile Char.isWhitespace).reverse

/-- The character class `[a-zA-Z0-9_-]` used by every identifier regex. -/
def classChar (c : Char) : Bool := c.isAlphanum || c == '_' || c == '-'

/-- One regex-match attempt at the current position: literal `pre`, then a
nonempty greedy run of `classChar`, then literal `post`.  Every regex in the
source has this shape, and in each the character after the capture group is
outside the class, so greedy matching without backtracking is exact. -/
def captureAt (pre post s : Str) : Option Str :=
  if leadsWith pre s then
    let rest := s.drop pre.length
    let run := rest.takeWhile classChar
    if run ≠ [] && leadsWith post (rest.drop run.length) then some run else none
  else none

/-- Leftmost match of the pattern `pre([a-zA-Z0-9_-]+)post`, returning the
capture group (regexp.FindStringSubmatch, submatch 1). -/
def findCaptureL (pre post : Str) : Str → Option Str
  | [] => captureAt pre post []
  | c :: rest =>
    match captureAt pre post (c :: rest) with
    | some r => some r
    | none => findCaptureL pre post rest

/-- Feed health values, per the CHECK constraint on feeds.health. -/
inductive Health where
  | healthy
  | warning
  | error
deriving DecidableEq, Repr

/-- A row of the feeds table (models.Feed). -/
structure Feed where
  id : Nat
  url : Str
  title : Str
  description : Str
  folderID : Option Nat
  createdAt : Nat
  updatedAt : Nat
  lastFetch : Option Nat
  health : Health
  errorCount : Int
deriving DecidableEq, Repr

/-- A row of the articles table (models.Article). -/
structure Article where
  id : Nat
  feedID : Nat
  title : Str
  content : Str
  url : Str
  author : Str
  publishedAt : Nat
  read : Bool
  saved : Bool
  createdAt : Nat
deriving DecidableEq, Repr

/-- A normalized feed entry as produced by the gofeed parser (gofeed.Item).
`author` carries Author.Name when Author is non-nil. -/
structure Item where
  title : Str
  link : Str
  description : Str
  content : Str
  author : Option Str
  publishedParsed : Option Nat
deriving DecidableEq, Repr

/-- A parsed feed document (gofeed.Feed): metadata plus entries in order. -/
structure ParsedFeed where
  title : Str
  description : Str
  items : List Item
deriving DecidableEq, Repr

/-- The persistent store: feed and article rows plus the autoincrement
counters of the two tables. -/
structure DBState where
  feeds : List Feed
  articles : List Article
  nextFeedID : Nat
  nextArticleID : Nat
deriving DecidableEq, Repr

/-- The environment oracle: outcome of the feed fetch/parse for each URL,
outcome of the auxiliary page fetch (status code and body), which article
INSERTs fail at the storage layer, and the current wall-clock time. -/
structure Env where
  fetch : Str → Except Str ParsedFeed
  pageGet : Str → Except Str (Nat × Str)
  insertFails : Nat → Item → Bool
  now : Nat

/-- Errors surfaced by AddFeed, following the spec's taxonomy. -/
inductive AddError where
  | validation
  | resolution (msg : Str)
  | fetchFailed (msg : Str)
  | duplicate
deriving DecidableEq, Repr

/-- Errors surfaced by RefreshFeed. -/
inductive RefreshError where
  | feedNotFound
  | fetchFailed (msg : Str)
deriving DecidableEq, Repr

/-- SELECT ... FROM feeds WHERE id = ? (FeedService.GetFeedByID). -/
def GetFeedByID (db : DBState) (id : Nat) : Option Feed :=
  db.feeds.find? (fun f => f.id == id)

/-- SELECT ... FROM feeds WHERE url = ? (FeedService.GetFeedByURL). -/
def GetFeedByURL (db : DBState) (url : Str) : Option Feed :=
  db.feeds.find? (fun f => f.url == url)

/-- UPDATE of the single feeds row with the given id. -/
def updateFeedRow (db : DBState) (id : Nat) (g : Feed → Feed) : DBState :=
  { db with feeds := db.feeds.map (fun f => if f.id == id then g f else f) }

/-- The row update performed by FeedService.updateFeedError: the CASE on
`error_count + 1` (computed from the old row), the increment, and the
timestamps. -/
def failTransition (now : Nat) (f : Feed) : Feed :=
  { f with
    health :=
      if f.errorCount + 1 ≥ 3 then .error
      else if f.errorCount + 1 ≥ 1 then .warning
      else .healthy,
    errorCount := f.errorCount + 1,
    lastFetch := some now,
    updatedAt := now }

/-- FeedService.updateFeedError (the UPDATE always succeeds in the model;
the Go code logs and discards a failure of this statement). -/
def updateFeedError (env : Env) (db : DBState) (feedID : Nat) : DBState :=
  updateFeedRow db feedID (failTransition env.now)

/-- The metadata UPDATE on fetch success in RefreshFeed: title and
description from the fresh document, health healthy, error_count 0. -/
def successTransition (now : Nat) (parsed : ParsedFeed) (f : Feed) : Feed :=
  { f with
    title := parsed.title,
    description := parsed.description,
    lastFetch := some now,
    health := .healthy,
    errorCount := 0,
    updatedAt := now }

/-- SELECT COUNT(*) FROM articles WHERE feed_id = ? AND url = ? > 0. -/
def articleExists (db : DBState) (feedID : Nat) (link : Str) : Bool :=
  db.articles.any (fun a => a.feedID == feedID && a.url == link)

/-- The article row INSERTed for a fresh entry: published_at falls back to
the current time, content to the description, author to the empty string;
read and saved take their schema defaults FALSE, created_at the current
timestamp, id the autoincrement counter. -/
def mkArticle (env : Env) (db : DBState) (feedID : Nat) (item : Item) : Article :=
  { id := db.nextArticleID,
    feedID := feedID,
    title := item.title,
    content := if item.content ≠ [] then item.content else item.description,
    url := item.link,
    author := item.author.getD [],
    publishedAt := item.publishedParsed.getD env.now,
    read := false,
    saved := false,
    createdAt := env.now }

/-- FeedService.addArticle: skip when the dedup key already exists,
otherwise attempt the INSERT, which the storage oracle may fail. -/
def addArticle (env : Env) (db : DBState) (feedID : Nat) (item : Item) :
    DBState × Except Str Unit :=
  if articleExists db feedID item.link then (db, .ok ())
  else if env.insertFails feedID item then (db, .error ("insert failed".data))
  else ({ db with
          articles := db.articles ++ [mkArticle env db feedID item],
          nextArticleID := db.nextArticleID + 1 }, .ok ())

/-- The ingestion loop of RefreshFeed: every entry is attempted in document
order; a per-entry error is logged and dropped. -/
def ingestAll (env : Env) (db : DBState) (feedID : Nat) : List Item → DBState
  | [] => db
  | item :: rest => ingestAll env (addArticle env db feedID item).1 feedID rest

/-- FeedService.RefreshFeed: look the feed up, fetch/parse its URL; on
failure apply updateFeedError and return the fetch error; on success apply
the metadata/health UPDATE and then ingest every entry. -/
def RefreshFeed (env : Env) (db : DBState) (feedID : Nat) :
    DBState × Except RefreshError Unit :=
  match GetFeedByID db feedID with
  | none => (db, .error .feedNotFound)
  | some feed =>
    match env.fetch feed.url with
    | .error e => (updateFeedError env db feedID, .error (.fetchFailed e))
    | .ok parsed =>
      let db1 := updateFeedRow db feedID (successTransition env.now parsed)
      (ingestAll env db1 feedID parsed.items, .ok ())

/-- The feed endpoint base every YouTube conversion produces:
https with the videos.xml path and the channel_id query key. -/
def ytFeedBase : Str := "https://www.youtube.com/feeds/videos.xml?channel_id=".data

/-- HasPrefix(id, "UC") && len(id) == 24: the validation in
getYouTubeChannelID (captures are ASCII, so byte and char length agree). -/
def isValidChannelID (cid : Str) : Bool :=
  leadsWith ("UC".data) cid && cid.length == 24

/-- Keep a capture only when it passes the channel-id validation; an invalid
capture makes the loop move to the next pattern. -/
def validCapture (o : Option Str) : Option Str :=
  match o with
  | some cid => if isValidChannelID cid then some cid else none
  | none => none

/-- The pattern loop of getYouTubeChannelID over the page body: for each of
the three identifier patterns in order, take its leftmost match and return
the capture when it validates. -/
def extractChannelID (body : Str) : Option Str :=
  match validCapture (findCaptureL ("\"channelId\":\"".data) ("\"".data) body) with
  | some cid => some cid
  | none =>
    match validCapture (findCaptureL
        ("<meta property=\"og:url\" content=\"https://www.youtube.com/channel/".data)
        ("\">".data) body) with
    | some cid => some cid
    | none => validCapture (findCaptureL ("channel/".data) [] body)

/-- FeedService.getYouTubeChannelID: fetch the channel page, insist on a 200
status, then scan the body with the pattern loop. -/
def getYouTubeChannelID (env : Env) (channelURL : Str) : Except Str Str :=
  match env.pageGet channelURL with
  | .error e => .error ("failed to fetch channel page: ".data ++ e)
  | .ok (status, body) =>
    if status ≠ 200 then .error ("channel page returned non-OK status".data)
    else
      match extractChannelID body with
      | some cid => .ok cid
      | none => .error ("could not find channel ID for ".data ++ channelURL)

/-- FeedService.convertYouTubeToRSS: the four URL patterns in order.  A
channel-id path segment is embedded directly; the custom-name, user and
handle forms scrape the profile page for the channel id. -/
def convertYouTubeToRSS (env : Env) (url : Str) : Except Str Str :=
  match findCaptureL ("youtube.com/channel/".data) [] url with
  | some cid => .ok (ytFeedBase ++ cid)
  | none =>
    match findCaptureL ("youtube.com/c/".data) [] url with
    | some name =>
      match getYouTubeChannelID env ("https://www.youtube.com/c/".data ++ name) with
      | .ok cid => .ok (ytFeedBase ++ cid)
      | .error e => .error e
    | none =>
      match findCaptureL ("youtube.com/user/".data) [] url with
      | some name =>
        match getYouTubeChannelID env ("https://www.youtube.com/user/".data ++ name) with
        | .ok cid => .ok (ytFeedBase ++ cid)
        | .error e => .error e
      | none =>
        match findCaptureL ("youtube.com/@".data) [] url with
        | some name =>
          match getYouTubeChannelID env ("https://www.youtube.com/@".data ++ name) with
          | .ok cid => .ok (ytFeedBase ++ cid)
          | .error e => .error e
        | none => .error ("unsupported YouTube URL format: ".data ++ url)

/-- The feed/RSS/Atom marker test of convertToRSSURL: a case-insensitive
containment check for any of the three tokens. -/
def hasMarkerToken (url : Str) : Bool :=
  listContains ("rss".data) (toLowerL url) ||
  listContains ("atom".data) (toLowerL url) ||
  listContains ("feed".data) (toLowerL url)

/-- The platform-domain test of convertToRSSURL. -/
def isYouTubeURL (url : Str) : Bool :=
  listContains ("youtube.com".data) url || listContains ("youtu.be".data) url

/-- FeedService.convertToRSSURL, the URL resolver: marker-token URLs and
non-platform URLs pass through unchanged; platform URLs go through the
YouTube conversion. -/
def convertToRSSURL (env : Env) (url : Str) : Except Str Str :=
  if hasMarkerToken url then .ok url
  else if isYouTubeURL url then convertYouTubeToRSS env url
  else .ok url

/-- Whether the URL matches any of the four channel/profile/handle shapes of
convertYouTubeToRSS (used to state the resolver claims). -/
def matchesYTShape (url : Str) : Bool :=
  (findCaptureL ("youtube.com/channel/".data) [] url).isSome ||
  (findCaptureL ("youtube.com/c/".data) [] url).isSome ||
  (findCaptureL ("youtube.com/user/".data) [] url).isSome ||
  (findCaptureL ("youtube.com/@".data) [] url).isSome

/-- FeedService.AddFeed: trim and reject empty input, resolve the URL,
validate it with a fetch/parse, reject duplicates under the canonical and
the raw form, then insert the new row with the schema defaults
(health healthy, error_count 0, last_fetch NULL).  The asynchronous
initial refresh that Go fires after the insert is not part of the
synchronous result modelled here. -/
def AddFeed (env : Env) (db : DBState) (rawURL : Str) (folderID : Option Nat) :
    DBState × Except AddError Feed :=
  let url := trimL rawURL
  if url = [] then (db, .error .validation)
  else
    match convertToRSSURL env url with
    | .error e => (db, .error (.resolution e))
    | .ok rssURL =>
      match env.fetch rssURL with
      | .error e => (db, .error (.fetchFailed e))
      | .ok parsed =>
        if (GetFeedByURL db rssURL).isSome then (db, .error .duplicate)
        else if url ≠ rssURL && (GetFeedByURL db url).isSome then
          (db, .error .duplicate)
        else
          let newFeed : Feed :=
            { id := db.nextFeedID,
              url := rssURL,
              title := parsed.title,
              description := parsed.description,
              folderID := folderID,
              createdAt := env.now,
              updatedAt := env.now,
              lastFetch := none,
              health := .healthy,
              errorCount := 0 }
          ({ db with feeds := db.feeds ++ [newFeed],
                     nextFeedID := db.nextFeedID + 1 }, .ok newFeed)

/-- All stored error counts are nonnegative (they are SQL INTEGERs, so the
type itself does not force this). -/
def FeedsNonneg (db : DBState) : Prop := ∀ f ∈ db.feeds, 0 ≤ f.errorCount

/-! Concrete fixtures used by the witness theorems. -/

/-- A full entry: rich content, author and parsed publish time present. -/
def itemA : Item :=
  { title := "A".data, link := "https://e.com/a".data, description := "da".data,
    content := "ca".data, author := some ("au".data), publishedParsed := some 100 }

/-- A minimal entry: no content, no author, no parsed publish time. -/
def itemB : Item :=
  { title := "B".data, link := "https://e.com/b".data, description := "db".data,
    content := [], author := none, publishedParsed := none }

/-- A third entry. -/
def itemC : Item :=
  { title := "C".data, link := "https://e.com/c".data, description := "dc".data,
    content := "cc".data, author := none, publishedParsed := some 7 }

/-- An entry with a link absent from the first document. -/
def itemNew : Item :=
  { title := "N".data, link := "https://e.com/new".data, description := "dn".data,
    content := [], author := none, publishedParsed := none }

/-- A three-entry document. -/
def parsedDoc : ParsedFeed :=
  { title := "T".data, description := "D".data, items := [itemA, itemB, itemC] }

/-- The same document with one new link appended. -/
def parsedDocPlus : ParsedFeed :=
  { title := "T".data, description := "D".data,
    items := [itemA, itemB, itemC, itemNew] }

/-- A healthy registered feed with no errors. -/
def feedC : Feed :=
  { id := 1, url := "https://e.com/feed.xml".data, title := "old".data,
    description := "od".data, folderID := none, createdAt := 0, updatedAt := 0,
    lastFetch := none, health := .healthy, errorCount := 0 }

/-- A store holding exactly `feedC` and no articles. -/
def dbC : DBState := { feeds := [feedC], articles := [], nextFeedID := 2, nextArticleID := 1 }

/-- Environment in which every feed fetch succeeds with `parsedDoc` and no
insert fails. -/
def envOkC : Env :=
  { fetch := fun _ => .ok parsedDoc, pageGet := fun _ => .error ("offline".data),
    insertFails := fun _ _ => false, now := 50 }

/-- Environment in which every feed fetch succeeds with `parsedDocPlus`. -/
def envPlusC : Env :=
  { fetch := fun _ => .ok parsedDocPlus, pageGet := fun _ => .error ("offline".data),
    insertFails := fun _ _ => false, now := 60 }

/-- Environment in which every feed fetch fails. -/
def envFailC : Env :=
  { fetch := fun _ => .error ("boom".data), pageGet := fun _ => .error ("offline".data),
    insertFails := fun _ _ => false, now := 50 }

/-- A one-character entry used to build the ten-entry document. -/
def mkItemCh (c : Char) : Item :=
  { title := [c], link := ['l', c], description := ['d'], content := [],
    author := none, publishedParsed := none }

/-- Ten entries with pairwise distinct links. -/
def items10 : List Item :=
  [mkItemCh '0', mkItemCh '1', mkItemCh '2', mkItemCh '3', mkItemCh '4',
   mkItemCh '5', mkItemCh '6', mkItemCh '7', mkItemCh '8', mkItemCh '9']

/-- A ten-entry document. -/
def parsedDoc10 : ParsedFeed :=
  { title := "T10".data, description := "D10".data, items := items10 }

/-- Environment in which the fetch yields the ten-entry document and the
INSERT of entry five (link l4) fails at the storage layer. -/
def envTenC : Env :=
  { fetch := fun _ => .ok parsedDoc10, pageGet := fun _ => .error ("offline".data),
    insertFails := fun _ it => it.link == ['l', '4'], now := 70 }

/-- A valid 24-character channel identifier. -/
def cidC : Str := "UCabcdefghijklmnopqrstuv".data

/-- A channel page body embedding `cidC` under the first pattern. -/
def bodyC : Str := ("junk \"channelId\":\"UCabcdefghijklmnopqrstuv\" tail".data)

/-- Environment in which the page fetch returns status 200 with `bodyC`. -/
def envPageC : Env :=
  { fetch := fun _ => .error ("offline".data),
    pageGet := fun _ => .ok (200, bodyC),
    insertFails := fun _ _ => false, now := 0 }

/-- Environment in which the page fetch returns a body with no matching
identifier pattern. -/
def envPageBadC : Env :=
  { fetch := fun _ => .error ("offline".data),
    pageGet := fun _ => .ok (200, ("nothing to see".data)),
    insertFails := fun _ _ => false, now := 0 }

/-- A platform URL that is neither a marker-token URL nor one of the four
channel/profile/handle shapes. -/
def watchURL : Str := "https://www.youtube.com/watch?v=dQw4w9WgXcQ".data

/-- A profile URL in the handle shape. -/
def handleURL : Str := "https://www.youtube.com/@someone".data

/-! Helper lemmas about the store operations. -/

theorem updateFeedRow_articles (db : DBState) (id : Nat) (g : Feed → Feed) :
    (updateFeedRow db id g).articles = db.articles := rfl

theorem find?_map_update (fds : List Feed) (id : Nat) (g : Feed → Feed)
    (hg : ∀ f, (g f).id = f.id) :
    (fds.map (fun f => if f.id == id then g f else f)).find? (fun f => f.id == id)
      = (fds.find? (fun f => f.id == id)).map g := by
  induction fds with
  | nil => rfl
  | cons hd tl ih =>
    by_cases h : hd.id = id
    · have h1 : (hd.id == id) = true := beq_iff_eq.mpr h
      have h2 : ((g hd).id == id) = true := beq_iff_eq.mpr (by rw [hg hd, h])
      simp only [List.map_cons, h1, if_true, List.find?_cons, h2]
      rfl
    · have h1 : (hd.id == id) = false := beq_eq_false_iff_ne.mpr h
      simp only [List.map_cons, h1, if_false, Bool.false_eq_true, List.find?_cons, ih]

theorem GetFeedByID_updateFeedRow (db : DBState) (id : Nat) (g : Feed → Feed)
    (hg : ∀ f, (g f).id = f.id) :
    GetFeedByID (updateFeedRow db id g) id = (GetFeedByID db id).map g :=
  find?_map_update db.feeds id g hg

theorem addArticle_feeds (env : Env) (db : DBState) (fid : Nat) (it : Item) :
    ((addArticle env db fid it).1).feeds = db.feeds := by
  unfold addArticle
  split
  · rfl
  · split
    · rfl
    · rfl

theorem ingestAll_feeds (env : Env) (items : List Item) :
    ∀ (db : DBState) (fid : Nat), (ingestAll env db fid items).feeds = db.feeds := by
  induction items with
  | nil => intro db fid; rfl
  | cons it rest ih =>
    intro db fid
    simp only [ingestAll]
    rw [ih, addArticle_feeds]

theorem GetFeedByID_ingestAll (env : Env) (db : DBState) (fid : Nat)
    (items : List Item) (id : Nat) :
    GetFeedByID (ingestAll env db fid items) id = GetFeedByID db id := by
  unfold GetFeedByID
  rw [ingestAll_feeds]

theorem articleExists_congr (db db' : DBState) (fid : Nat) (l : Str)
    (h : db.articles = db'.articles) :
    articleExists db fid l = articleExists db' fid l := by
  unfold articleExists
  rw [h]

theorem articleExists_addArticle (env : Env) (db : DBState) (fid' : Nat) (it : Item)
    (fid : Nat) (l : Str) (h : articleExists db fid l = true) :
    articleExists (addArticle env db fid' it).1 fid l = true := by
  unfold addArticle
  split
  · exact h
  · split
    · exact h
    · unfold articleExists at h ⊢
      simp only [List.any_append, h, Bool.true_or]

theorem articleExists_ingestAll (env : Env) (items : List Item) :
    ∀ (db : DBState) (fid' fid : Nat) (l : Str),
      articleExists db fid l = true →
      articleExists (ingestAll env db fid' items) fid l = true := by
  induction items with
  | nil => intro db fid' fid l h; exact h
  | cons it rest ih =>
    intro db fid' fid l h
    simp only [ingestAll]
    exact ih _ _ _ _ (articleExists_addArticle env db fid' it fid l h)

theorem addArticle_own_link (env : Env) (db : DBState) (fid : Nat) (it : Item)
    (h : env.insertFails fid it = false) :
    articleExists (addArticle env db fid it).1 fid it.link = true := by
  cases hc : articleExists db fid it.link with
  | true =>
    unfold addArticle
    simp only [hc, if_true]
  | false =>
    unfold addArticle
    simp only [hc, h, Bool.false_eq_true, if_false]
    unfold articleExists
    simp [mkArticle]

theorem ingestAll_all_links (env : Env) (fid : Nat)
    (hins : ∀ i : Item, env.insertFails fid i = false) (items : List Item) :
    ∀ (db : DBState), ∀ it ∈ items,
      articleExists (ingestAll env db fid items) fid it.link = true := by
  induction items with
  | nil => intro db it hmem; simp at hmem
  | cons hd rest ih =>
    intro db it hmem
    simp only [ingestAll]
    rcases List.mem_cons.mp hmem with rfl | hmem'
    · exact articleExists_ingestAll env rest _ fid fid _
        (addArticle_own_link env db fid it (hins it))
    · exact ih _ it hmem'

theorem addArticle_skip (env : Env) (db : DBState) (fid : Nat) (it : Item)
    (h : articleExists db fid it.link = true) :
    addArticle env db fid it = (db, .ok ()) := by
  unfold addArticle
  simp only [h, if_true]

theorem ingestAll_noop (env : Env) (db : DBState) (fid : Nat) (items : List Item)
    (h : ∀ it ∈ items, articleExists db fid it.link = true) :
    ingestAll env db fid items = db := by
  induction items with
  | nil => rfl
  | cons hd rest ih =>
    simp only [ingestAll]
    rw [addArticle_skip env db fid hd (h hd (List.mem_cons_self hd rest))]
    exact ih (fun it hmem => h it (List.mem_cons_of_mem hd hmem))

theorem ingestAll_append (env : Env) (fid : Nat) (l1 : List Item) :
    ∀ (l2 : List Item) (db : DBState),
      ingestAll env db fid (l1 ++ l2) = ingestAll env (ingestAll env db fid l1) fid l2 := by
  induction l1 with
  | nil => intro l2 db; rfl
  | cons hd rest ih =>
    intro l2 db
    simp only [List.cons_append, ingestAll]
    exact ih l2 _

theorem RefreshFeed_fail_eq (env : Env) (db : DBState) (feedID : Nat) (feed : Feed)
    (e : Str) (hfind : GetFeedByID db feedID = some feed)
    (hf : env.fetch feed.url = .error e) :
    RefreshFeed env db feedID
      = (updateFeedRow db feedID (failTransition env.now), .error (.fetchFailed e)) := by
  simp only [RefreshFeed, hfind, hf, updateFeedError]

theorem RefreshFeed_ok_eq (env : Env) (db : DBState) (feedID : Nat) (feed : Feed)
    (parsed : ParsedFeed) (hfind : GetFeedByID db feedID = some feed)
    (hf : env.fetch feed.url = .ok parsed) :
    RefreshFeed env db feedID
      = (ingestAll env (updateFeedRow db feedID (successTransition env.now parsed))
           feedID parsed.items, .ok ()) := by
  simp only [RefreshFeed, hfind, hf]

theorem successTransition_id (now : Nat) (parsed : ParsedFeed) (f : Feed) :
    (successTransition now parsed f).id = f.id := rfl

theorem failTransition_id (now : Nat) (f : Feed) :
    (failTransition now f).id = f.id := rfl

theorem GetFeedByID_after_fail (env : Env) (db : DBState) (feedID : Nat) (feed : Feed)
    (e : Str) (hfind : GetFeedByID db feedID = some feed)
    (hf : env.fetch feed.url = .error e) :
    GetFeedByID (RefreshFeed env db feedID).1 feedID
      = some (failTransition env.now feed) := by
  rw [RefreshFeed_fail_eq env db feedID feed e hfind hf]
  rw [GetFeedByID_updateFeedRow db feedID _ (failTransition_id env.now), hfind]
  rfl

theorem GetFeedByID_after_ok (env : Env) (db : DBState) (feedID : Nat) (feed : Feed)
    (parsed : ParsedFeed) (hfind : GetFeedByID db feedID = some feed)
    (hf : env.fetch feed.url = .ok parsed) :
    GetFeedByID (RefreshFeed env db feedID).1 feedID
      = some (successTransition env.now parsed feed) := by
  rw [RefreshFeed_ok_eq env db feedID feed parsed hfind hf]
  show GetFeedByID (ingestAll env _ feedID parsed.items) feedID = _
  rw [GetFeedByID_ingestAll]
  rw [GetFeedByID_updateFeedRow db feedID _ (successTransition_id env.now parsed), hfind]
  rfl

theorem addArticle_fresh_eq (env : Env) (db : DBState) (fid : Nat) (it : Item)
    (hex : articleExists db fid it.link = false)
    (hins : env.insertFails fid it = false) :
    addArticle env db fid it
      = ({ db with articles := db.articles ++ [mkArticle env db fid it],
                   nextArticleID := db.nextArticleID + 1 }, .ok ()) := by
  unfold addArticle
  simp only [hex, hins, Bool.false_eq_true, if_false]

theorem addArticle_failed_eq (env : Env) (db : DBState) (fid : Nat) (it : Item)
    (hex : articleExists db fid it.link = false)
    (hins : env.insertFails fid it = true) :
    addArticle env db fid it = (db, .error ("insert failed".data)) := by
  unfold addArticle
  simp only [hex, hins, Bool.false_eq_true, if_false, if_true]

theorem articleExists_insert (env : Env) (db : DBState) (fid : Nat) (it : Item)
    (l : Str) :
    articleExists
      { db with articles := db.articles ++ [mkArticle env db fid it],
                nextArticleID := db.nextArticleID + 1 } fid l
      = (articleExists db fid l || (it.link == l)) := by
  unfold articleExists
  simp only [List.any_append, List.any_cons, List.any_nil, Bool.or_false]
  simp [mkArticle]

theorem ingestAll_length (env : Env) (fid : Nat) :
    ∀ (items : List Item) (db : DBState),
      (items.map Item.link).Nodup →
      (∀ it ∈ items, articleExists db fid it.link = false) →
      (ingestAll env db fid items).articles.length
        = db.articles.length
          + (items.filter (fun it => !env.insertFails fid it)).length := by
  intro items
  induction items with
  | nil => intro db _ _; rfl
  | cons hd rest ih =>
    intro db hnd hfr
    have hx : articleExists db fid hd.link = false := hfr hd (List.mem_cons_self hd rest)
    have hnd2 := List.nodup_cons.mp hnd
    cases hf : env.insertFails fid hd with
    | true =>
      simp only [ingestAll]
      rw [addArticle_failed_eq env db fid hd hx hf]
      have hfr2 : ∀ it ∈ rest, articleExists db fid it.link = false :=
        fun it hmem => hfr it (List.mem_cons_of_mem hd hmem)
      rw [ih db hnd2.2 hfr2]
      simp [List.filter_cons, hf]
    | false =>
      simp only [ingestAll]
      rw [addArticle_fresh_eq env db fid hd hx hf]
      have hfr2 : ∀ it ∈ rest,
          articleExists
            { db with articles := db.articles ++ [mkArticle env db fid hd],
                      nextArticleID := db.nextArticleID + 1 } fid it.link = false := by
        intro it hmem
        rw [articleExists_insert]
        have h1 : articleExists db fid it.link = false :=
          hfr it (List.mem_cons_of_mem hd hmem)
        have h2 : hd.link ≠ it.link := by
          intro hcontra
          exact hnd2.1 (hcontra ▸ List.mem_map.mpr ⟨it, hmem, rfl⟩)
        simp [h1, h2]
      rw [ih _ hnd2.2 hfr2]
      simp only [List.length_append, List.length_cons, List.length_nil]
      simp [List.filter_cons, hf]
      omega

/-! Helper lemmas about the string primitives and the URL resolver. -/

theorem leadsWith_nil (sub : Str) (h : leadsWith sub [] = true) : sub = [] := by
  cases sub with
  | nil => rfl
  | cons p ps => simp [leadsWith] at h

theorem leadsWith_append (sub : Str) :
    ∀ (s t : Str), leadsWith sub s = true → leadsWith sub (s ++ t) = true := by
  induction sub with
  | nil => intro s t _; rfl
  | cons p ps ih =>
    intro s t h
    cases s with
    | nil => simp [leadsWith] at h
    | cons c cs =>
      simp only [List.cons_append, leadsWith, Bool.and_eq_true] at h ⊢
      exact ⟨h.1, ih cs t h.2⟩

theorem listContains_nil_sub (l : Str) : listContains [] l = true := by
  cases l with
  | nil => rfl
  | cons c cs => rfl

theorem listContains_append_left (sub : Str) :
    ∀ (l1 l2 : Str), listContains sub l1 = true → listContains sub (l1 ++ l2) = true := by
  intro l1
  induction l1 with
  | nil =>
    intro l2 h
    have hs := leadsWith_nil sub h
    subst hs
    exact listContains_nil_sub l2
  | cons c cs ih =>
    intro l2 h
    simp only [List.cons_append, listContains, Bool.or_eq_true] at h ⊢
    rcases h with h | h
    · exact Or.inl (leadsWith_append sub (c :: cs) l2 h)
    · exact Or.inr (ih l2 h)

theorem hasMarkerToken_ytBase (cid : Str) : hasMarkerToken (ytFeedBase ++ cid) = true := by
  unfold hasMarkerToken
  have h : listContains ("feed".data) (toLowerL (ytFeedBase ++ cid)) = true := by
    have hmap : toLowerL (ytFeedBase ++ cid) = toLowerL ytFeedBase ++ toLowerL cid :=
      List.map_append _ _ _
    rw [hmap]
    exact listContains_append_left _ _ _ (by decide)
  simp [h]

theorem convertYT_ok_shape (env : Env) (url out : Str)
    (h : convertYouTubeToRSS env url = .ok out) : ∃ cid, out = ytFeedBase ++ cid := by
  unfold convertYouTubeToRSS at h
  split at h
  · rename_i cid heq
    injection h with h2
    exact ⟨cid, h2.symm⟩
  · split at h
    · split at h
      · rename_i cid heq
        injection h with h2
        exact ⟨cid, h2.symm⟩
      · exact absurd h (by simp)
    · split at h
      · split at h
        · rename_i cid heq
          injection h with h2
          exact ⟨cid, h2.symm⟩
        · exact absurd h (by simp)
      · split at h
        · split at h
          · rename_i cid heq
            injection h with h2
            exact ⟨cid, h2.symm⟩
          · exact absurd h (by simp)
        · exact absurd h (by simp)

theorem validCapture_valid (o : Option Str) (cid : Str)
    (h : validCapture o = some cid) : isValidChannelID cid = true := by
  unfold validCapture at h
  split at h
  · rename_i cid2
    split at h
    · rename_i hval
      injection h with h2
      subst h2
      exact hval
    · exact absurd h (by simp)
  · exact absurd h (by simp)

theorem extractChannelID_valid (body cid : Str)
    (h : extractChannelID body = some cid) : isValidChannelID cid = true := by
  unfold extractChannelID at h
  split at h
  · rename_i heq
    injection h with h2
    subst h2
    exact validCapture_valid _ _ heq
  · split at h
    · rename_i heq
      injection h with h2
      subst h2
      exact validCapture_valid _ _ heq
    · exact validCapture_valid _ _ h

theorem getYTChannelID_ok_valid (env : Env) (url cid : Str)
    (h : getYouTubeChannelID env url = .ok cid) : isValidChannelID cid = true := by
  unfold getYouTubeChannelID at h
  split at h
  · exact absurd h (by simp)
  · split at h
    · exact absurd h (by simp)
    · split at h
      · rename_i cid2 heq
        injection h with h2
        subst h2
        exact extractChannelID_valid _ _ heq
      · exact absurd h (by simp)

theorem getYTChannelID_fetch_error (env : Env) (url e : Str)
    (h : env.pageGet url = .error e) :
    getYouTubeChannelID env url
      = .error ("failed to fetch channel page: ".data ++ e) := by
  simp [getYouTubeChannelID, h]

theorem getYTChannelID_bad_status (env : Env) (url : Str) (status : Nat) (body : Str)
    (h : env.pageGet url = .ok (status, body)) (hs : status ≠ 200) :
    getYouTubeChannelID env url
      = .error ("channel page returned non-OK status".data) := by
  simp [getYouTubeChannelID, h, hs]

theorem getYTChannelID_no_match (env : Env) (url body : Str)
    (h : env.pageGet url = .ok (200, body)) (he : extractChannelID body = none) :
    getYouTubeChannelID env url
      = .error ("could not find channel ID for ".data ++ url) := by
  simp [getYouTubeChannelID, h, he]

theorem RefreshFeed_none_eq (env : Env) (db : DBState) (feedID : Nat)
    (h : GetFeedByID db feedID = none) :
    RefreshFeed env db feedID = (db, .error .feedNotFound) := by
  simp [RefreshFeed, h]

theorem AddFeed_cases (env : Env) (db : DBState) (rawURL : Str) (folderID : Option Nat) :
    (AddFeed env db rawURL folderID).1 = db ∨
    ∃ f, f.errorCount = 0 ∧ f.health = .healthy ∧
      AddFeed env db rawURL folderID
        = ({ db with feeds := db.feeds ++ [f], nextFeedID := db.nextFeedID + 1 }, .ok f) := by
  unfold AddFeed
  dsimp only
  split
  · exact Or.inl rfl
  · split
    · exact Or.inl rfl
    · split
      · exact Or.inl rfl
      · split
        · exact Or.inl rfl
        · split
          · exact Or.inl rfl
          · exact Or.inr ⟨_, rfl, rfl, rfl⟩

/-! The claims. -/

/-- Claim C9: refreshing a feed id that has no corresponding feed row
returns an error immediately and performs no writes at all: the store comes
back unchanged, so neither the feeds nor the articles lists are touched and
no health or error-count update happens. -/
theorem C9_refresh_missing_feed (env : Env) (db : DBState) (feedID : Nat)
    (h : GetFeedByID db feedID = none) :
    RefreshFeed env db feedID = (db, .error .feedNotFound) :=
  RefreshFeed_none_eq env db feedID h

/-- Witness for C9 at a concrete store and absent id. -/
theorem C9_witness :
    GetFeedByID dbC 99 = none ∧
    RefreshFeed envOkC dbC 99 = (dbC, .error .feedNotFound) :=
  ⟨rfl, C9_refresh_missing_feed envOkC dbC 99 rfl⟩

/-- Claim C8: a fresh entry is inserted with publishedAt equal to the parsed
publish time when present and the ingestion wall-clock time otherwise;
content equal to the entry's rich content when nonempty and its description
otherwise; author equal to the author name when present and empty
otherwise; and read and saved both false. -/
theorem C8_article_field_mapping (env : Env) (db : DBState) (feedID : Nat) (it : Item)
    (hex : articleExists db feedID it.link = false)
    (hins : env.insertFails feedID it = false) :
    (addArticle env db feedID it).1.articles
        = db.articles ++ [mkArticle env db feedID it] ∧
    (addArticle env db feedID it).2 = .ok () ∧
    (∀ t, it.publishedParsed = some t → (mkArticle env db feedID it).publishedAt = t) ∧
    (it.publishedParsed = none → (mkArticle env db feedID it).publishedAt = env.now) ∧
    (it.content ≠ [] → (mkArticle env db feedID it).content = it.content) ∧
    (it.content = [] → (mkArticle env db feedID it).content = it.description) ∧
    (∀ a, it.author = some a → (mkArticle env db feedID it).author = a) ∧
    (it.author = none → (mkArticle env db feedID it).author = []) ∧
    (mkArticle env db feedID it).read = false ∧
    (mkArticle env db feedID it).saved = false := by
  refine ⟨?_, ?_, ?_, ?_, ?_, ?_, ?_, ?_, rfl, rfl⟩
  · rw [addArticle_fresh_eq env db feedID it hex hins]
  · rw [addArticle_fresh_eq env db feedID it hex hins]
  · intro t ht; simp [mkArticle, ht]
  · intro ht; simp [mkArticle, ht]
  · intro hc; simp [mkArticle, hc]
  · intro hc; simp [mkArticle, hc]
  · intro a ha; simp [mkArticle, ha]
  · intro ha; simp [mkArticle, ha]

/-- Witness for C8 at a concrete store and entry. -/
theorem C8_witness :
    articleExists dbC 1 itemA.link = false ∧
    envOkC.insertFails 1 itemA = false ∧
    ((addArticle envOkC dbC 1 itemA).1.articles
        = dbC.articles ++ [mkArticle envOkC dbC 1 itemA] ∧
     (addArticle envOkC dbC 1 itemA).2 = .ok () ∧
     (∀ t, itemA.publishedParsed = some t →
        (mkArticle envOkC dbC 1 itemA).publishedAt = t) ∧
     (itemA.publishedParsed = none →
        (mkArticle envOkC dbC 1 itemA).publishedAt = envOkC.now) ∧
     (itemA.content ≠ [] → (mkArticle envOkC dbC 1 itemA).content = itemA.content) ∧
     (itemA.content = [] → (mkArticle envOkC dbC 1 itemA).content = itemA.description) ∧
     (∀ a, itemA.author = some a → (mkArticle envOkC dbC 1 itemA).author = a) ∧
     (itemA.author = none → (mkArticle envOkC dbC 1 itemA).author = []) ∧
     (mkArticle envOkC dbC 1 itemA).read = false ∧
     (mkArticle envOkC dbC 1 itemA).saved = false) :=
  ⟨rfl, rfl, C8_article_field_mapping envOkC dbC 1 itemA rfl rfl⟩

/-- Claim C4: AddFeed is all-or-nothing.  Whenever it returns an error the
store is unchanged, and each early failure returns its own error class:
empty or whitespace-only input fails validation, a resolver failure is
surfaced as a resolution error, and a failure of the validation fetch of
the canonical URL is surfaced as a fetch error, all without registering a
feed row. -/
theorem C4_add_all_or_nothing (env : Env) (db : DBState) (rawURL : Str)
    (folderID : Option Nat) :
    (∀ e, (AddFeed env db rawURL folderID).2 = .error e
        → (AddFeed env db rawURL folderID).1 = db) ∧
    (trimL rawURL = [] → AddFeed env db rawURL folderID = (db, .error .validation)) ∧
    (∀ msg, trimL rawURL ≠ [] → convertToRSSURL env (trimL rawURL) = .error msg →
        AddFeed env db rawURL folderID = (db, .error (.resolution msg))) ∧
    (∀ rssURL msg, trimL rawURL ≠ [] →
        convertToRSSURL env (trimL rawURL) = .ok rssURL →
        env.fetch rssURL = .error msg →
        AddFeed env db rawURL folderID = (db, .error (.fetchFailed msg))) := by
  refine ⟨?_, ?_, ?_, ?_⟩
  · intro e he
    rcases AddFeed_cases env db rawURL folderID with h | ⟨f, _, _, h⟩
    · exact h
    · rw [h] at he
      exact absurd he (by simp)
  · intro h
    simp [AddFeed, h]
  · intro msg hne hc
    simp [AddFeed, hne, hc]
  · intro rssURL msg hne hc hf
    simp [AddFeed, hne, hc, hf]

/-- Witness for C4 at a whitespace-only input. -/
theorem C4_witness :
    trimL ("  ".data) = [] ∧
    AddFeed envOkC dbC ("  ".data) none = (dbC, .error .validation) :=
  ⟨by decide, (C4_add_all_or_nothing envOkC dbC ("  ".data) none).2.1 (by decide)⟩

/-- Claim C3: an AddFeed call that reaches the duplicate check (the resolver
and the validation fetch succeed) and whose canonical URL — or raw trimmed
input, when the two differ — matches an existing feed's stored URL fails
with the duplicate error and leaves the store, and hence the existing feed
row, completely unchanged. -/
theorem C3_duplicate_add (env : Env) (db : DBState) (rawURL : Str)
    (folderID : Option Nat) (rssURL : Str) (parsed : ParsedFeed)
    (hne : trimL rawURL ≠ [])
    (hres : convertToRSSURL env (trimL rawURL) = .ok rssURL)
    (hfetch : env.fetch rssURL = .ok parsed)
    (hdup : (GetFeedByURL db rssURL).isSome = true ∨
            (trimL rawURL ≠ rssURL ∧ (GetFeedByURL db (trimL rawURL)).isSome = true)) :
    AddFeed env db rawURL folderID = (db, .error .duplicate) := by
  cases hc : (GetFeedByURL db rssURL).isSome with
  | true => simp [AddFeed, hne, hres, hfetch, hc]
  | false =>
    rcases hdup with h | ⟨hd1, hd2⟩
    · rw [hc] at h
      exact absurd h (by simp)
    · simp [AddFeed, hne, hres, hfetch, hc, hd1, hd2]

/-- Witness for C3: adding the already-registered URL fails as a duplicate
and returns the store unchanged. -/
theorem C3_witness :
    trimL ("https://e.com/feed.xml".data) ≠ [] ∧
    convertToRSSURL envOkC (trimL ("https://e.com/feed.xml".data))
      = .ok ("https://e.com/feed.xml".data) ∧
    envOkC.fetch ("https://e.com/feed.xml".data) = .ok parsedDoc ∧
    (GetFeedByURL dbC ("https://e.com/feed.xml".data)).isSome = true ∧
    AddFeed envOkC dbC ("https://e.com/feed.xml".data) none
      = (dbC, .error .duplicate) :=
  ⟨by decide, rfl, rfl, rfl,
   C3_duplicate_add envOkC dbC ("https://e.com/feed.xml".data) none
     ("https://e.com/feed.xml".data) parsedDoc (by decide) rfl rfl (Or.inl rfl)⟩

theorem failTransition_errorCount (now : Nat) (f : Feed) :
    (failTransition now f).errorCount = f.errorCount + 1 := rfl

theorem failTransition_url (now : Nat) (f : Feed) :
    (failTransition now f).url = f.url := rfl

theorem failTransition_health_error (now : Nat) (f : Feed)
    (h : f.errorCount + 1 ≥ 3) : (failTransition now f).health = .error := by
  simp [failTransition, h]

theorem failTransition_health_warning (now : Nat) (f : Feed)
    (h1 : 1 ≤ f.errorCount + 1) (h2 : f.errorCount + 1 < 3) :
    (failTransition now f).health = .warning := by
  have h3 : ¬ (f.errorCount + 1 ≥ 3) := by omega
  simp [failTransition, h3, h1]

/-- Claim C1: the refresh transition rule.  On fetch success the looked-up
row becomes the success transition of the old row: error count zero,
health healthy, last fetch stamped now, title and description overwritten
from the fresh document (ingestion never touches the feeds table).  On
fetch failure the row becomes the failure transition: error count
incremented, last fetch stamped now, health error at three or more and
warning at one or two, no articles ingested, and the fetch error returned.
Consequently a feed at error count zero reaches health error after three
consecutive failed refreshes, and one subsequent success resets it to
error count zero and health healthy. -/
theorem C1_refresh_transition (env env2 : Env) (db : DBState) (feedID : Nat)
    (feed : Feed) (hfind : GetFeedByID db feedID = some feed) :
    (∀ parsed, env.fetch feed.url = .ok parsed →
      (RefreshFeed env db feedID).2 = .ok () ∧
      GetFeedByID (RefreshFeed env db feedID).1 feedID
        = some (successTransition env.now parsed feed) ∧
      (successTransition env.now parsed feed).errorCount = 0 ∧
      (successTransition env.now parsed feed).health = .healthy ∧
      (successTransition env.now parsed feed).lastFetch = some env.now ∧
      (successTransition env.now parsed feed).title = parsed.title ∧
      (successTransition env.now parsed feed).description = parsed.description) ∧
    (∀ e, env.fetch feed.url = .error e →
      (RefreshFeed env db feedID).2 = .error (.fetchFailed e) ∧
      (RefreshFeed env db feedID).1.articles = db.articles ∧
      GetFeedByID (RefreshFeed env db feedID).1 feedID
        = some (failTransition env.now feed) ∧
      (failTransition env.now feed).errorCount = feed.errorCount + 1 ∧
      (failTransition env.now feed).lastFetch = some env.now ∧
      (feed.errorCount + 1 ≥ 3 → (failTransition env.now feed).health = .error) ∧
      (1 ≤ feed.errorCount + 1 → feed.errorCount + 1 < 3 →
        (failTransition env.now feed).health = .warning)) ∧
    (∀ e parsed2, feed.errorCount = 0 → env.fetch feed.url = .error e →
      env2.fetch feed.url = .ok parsed2 →
      ∃ f3, GetFeedByID
          (RefreshFeed env (RefreshFeed env (RefreshFeed env db feedID).1 feedID).1
            feedID).1 feedID = some f3 ∧
        f3.health = .error ∧ f3.errorCount = 3 ∧
        ∃ f4, GetFeedByID
            (RefreshFeed env2
              (RefreshFeed env (RefreshFeed env (RefreshFeed env db feedID).1 feedID).1
                feedID).1 feedID).1 feedID = some f4 ∧
          f4.errorCount = 0 ∧ f4.health = .healthy) := by
  refine ⟨?_, ?_, ?_⟩
  · intro parsed hp
    refine ⟨?_, GetFeedByID_after_ok env db feedID feed parsed hfind hp,
      rfl, rfl, rfl, rfl, rfl⟩
    rw [RefreshFeed_ok_eq env db feedID feed parsed hfind hp]
  · intro e he
    refine ⟨?_, ?_, GetFeedByID_after_fail env db feedID feed e hfind he,
      rfl, rfl, failTransition_health_error env.now feed,
      failTransition_health_warning env.now feed⟩
    · rw [RefreshFeed_fail_eq env db feedID feed e hfind he]
    · rw [RefreshFeed_fail_eq env db feedID feed e hfind he]
      rfl
  · intro e parsed2 hec hfe hok
    have g1 : GetFeedByID (RefreshFeed env db feedID).1 feedID
        = some (failTransition env.now feed) :=
      GetFeedByID_after_fail env db feedID feed e hfind hfe
    have g2 : GetFeedByID (RefreshFeed env (RefreshFeed env db feedID).1 feedID).1 feedID
        = some (failTransition env.now (failTransition env.now feed)) :=
      GetFeedByID_after_fail env _ feedID (failTransition env.now feed) e g1 hfe
    have g3 : GetFeedByID
        (RefreshFeed env (RefreshFeed env (RefreshFeed env db feedID).1 feedID).1
          feedID).1 feedID
        = some (failTransition env.now
            (failTransition env.now (failTransition env.now feed))) :=
      GetFeedByID_after_fail env _ feedID
        (failTransition env.now (failTransition env.now feed)) e g2 hfe
    refine ⟨_, g3, ?_, ?_, ?_⟩
    · apply failTransition_health_error
      rw [failTransition_errorCount, failTransition_errorCount, hec]
      omega
    · rw [failTransition_errorCount, failTransition_errorCount,
        failTransition_errorCount, hec]
      omega
    · have g4 : GetFeedByID
          (RefreshFeed env2
            (RefreshFeed env (RefreshFeed env (RefreshFeed env db feedID).1 feedID).1
              feedID).1 feedID).1 feedID
          = some (successTransition env2.now parsed2
              (failTransition env.now
                (failTransition env.now (failTransition env.now feed)))) :=
        GetFeedByID_after_ok env2 _ feedID _ parsed2 g3 hok
      exact ⟨_, g4, rfl, rfl⟩

/-- Witness for C1: the three-failures-then-success scenario at a concrete
feed starting at error count zero. -/
theorem C1_witness :
    feedC.errorCount = 0 ∧
    GetFeedByID dbC 1 = some feedC ∧
    envFailC.fetch feedC.url = .error ("boom".data) ∧
    envOkC.fetch feedC.url = .ok parsedDoc ∧
    (∃ f3, GetFeedByID
        (RefreshFeed envFailC (RefreshFeed envFailC (RefreshFeed envFailC dbC 1).1 1).1
          1).1 1 = some f3 ∧
      f3.health = .error ∧ f3.errorCount = 3 ∧
      ∃ f4, GetFeedByID
          (RefreshFeed envOkC
            (RefreshFeed envFailC (RefreshFeed envFailC (RefreshFeed envFailC dbC 1).1
              1).1 1).1 1).1 1 = some f4 ∧
        f4.errorCount = 0 ∧ f4.health = .healthy) :=
  ⟨rfl, rfl, rfl, rfl,
   (C1_refresh_transition envFailC envOkC dbC 1 feedC rfl).2.2 ("boom".data) parsedDoc
     rfl rfl rfl⟩

theorem FeedsNonneg_updateFeedRow (db : DBState) (id : Nat) (g : Feed → Feed)
    (hg : ∀ f, 0 ≤ f.errorCount → 0 ≤ (g f).errorCount)
    (h : FeedsNonneg db) : FeedsNonneg (updateFeedRow db id g) := by
  intro f' hmem
  rcases List.mem_map.mp hmem with ⟨f, hf, rfl⟩
  split
  · exact hg f (h f hf)
  · exact h f hf

/-- Claim C10: after a failed refresh the feed's health is warning or error,
never healthy.  Error counts stay nonnegative under every operation (a feed
is registered at zero and only ever reset to zero or incremented), hence
the incremented count is at least one and the healthy branch of the
failure CASE is unreachable. -/
theorem C10_fail_never_healthy :
    (∀ (env : Env) (db : DBState) (rawURL : Str) (folderID : Option Nat),
       FeedsNonneg db → FeedsNonneg (AddFeed env db rawURL folderID).1) ∧
    (∀ (env : Env) (db : DBState) (feedID : Nat),
       FeedsNonneg db → FeedsNonneg (RefreshFeed env db feedID).1) ∧
    (∀ (env : Env) (db : DBState) (feedID : Nat) (feed : Feed) (e : Str),
       FeedsNonneg db →
       GetFeedByID db feedID = some feed → env.fetch feed.url = .error e →
       ∀ f', GetFeedByID (RefreshFeed env db feedID).1 feedID = some f' →
         (f'.health = .warning ∨ f'.health = .error) ∧ f'.health ≠ .healthy) := by
  refine ⟨?_, ?_, ?_⟩
  · intro env db rawURL folderID h
    rcases AddFeed_cases env db rawURL folderID with heq | ⟨f, hec, _, heq⟩
    · rw [heq]; exact h
    · rw [heq]
      intro f' hmem
      rcases List.mem_append.mp hmem with hm | hm
      · exact h f' hm
      · rcases List.mem_singleton.mp hm with rfl
        rw [hec]
  · intro env db feedID h
    cases hfind : GetFeedByID db feedID with
    | none =>
      rw [RefreshFeed_none_eq env db feedID hfind]
      exact h
    | some feed =>
      cases hf : env.fetch feed.url with
      | error e =>
        rw [RefreshFeed_fail_eq env db feedID feed e hfind hf]
        exact FeedsNonneg_updateFeedRow db feedID _
          (fun f hf0 => by rw [failTransition_errorCount]; omega) h
      | ok parsed =>
        rw [RefreshFeed_ok_eq env db feedID feed parsed hfind hf]
        intro f' hmem
        rw [ingestAll_feeds] at hmem
        exact FeedsNonneg_updateFeedRow db feedID _
          (fun f _ => by simp [successTransition]) h f' hmem
  · intro env db feedID feed e hnn hfind hf f' hlook
    rw [GetFeedByID_after_fail env db feedID feed e hfind hf] at hlook
    injection hlook with h2
    subst h2
    have hmem : feed ∈ db.feeds := List.mem_of_find?_eq_some hfind
    have hge : 0 ≤ feed.errorCount := hnn feed hmem
    by_cases h3 : feed.errorCount + 1 ≥ 3
    · have hh := failTransition_health_error env.now feed h3
      rw [hh]
      exact ⟨Or.inr rfl, by simp⟩
    · have hh := failTransition_health_warning env.now feed (by omega) (by omega)
      rw [hh]
      exact ⟨Or.inl rfl, by simp⟩

/-- Witness for C10: one failed refresh of a concrete healthy feed leaves it
at health warning, which is not healthy. -/
theorem C10_witness :
    FeedsNonneg dbC ∧
    (((failTransition 50 feedC).health = .warning ∨
      (failTransition 50 feedC).health = .error) ∧
     (failTransition 50 feedC).health ≠ .healthy) :=
  ⟨by unfold FeedsNonneg; decide,
   C10_fail_never_healthy.2.2 envFailC dbC 1 feedC ("boom".data)
     (by unfold FeedsNonneg; decide) rfl rfl
     (failTransition 50 feedC) rfl⟩

/-- Claim C5: per-entry insert failures during one refresh are isolated.
With a successful fetch the refresh returns ok regardless of insert
failures, every entry is attempted, and the number of persisted articles
grows by the number of fresh entries whose INSERT did not fail — for a
ten-entry document whose fifth entry fails to insert, nine articles. -/
theorem C5_partial_failure_isolation (env : Env) (db : DBState) (feedID : Nat)
    (feed : Feed) (parsed : ParsedFeed)
    (hfind : GetFeedByID db feedID = some feed)
    (hfetch : env.fetch feed.url = .ok parsed)
    (hnd : (parsed.items.map Item.link).Nodup)
    (hfresh : ∀ it ∈ parsed.items, articleExists db feedID it.link = false) :
    (RefreshFeed env db feedID).2 = .ok () ∧
    (RefreshFeed env db feedID).1.articles.length
      = db.articles.length
        + (parsed.items.filter (fun it => !env.insertFails feedID it)).length := by
  rw [RefreshFeed_ok_eq env db feedID feed parsed hfind hfetch]
  refine ⟨rfl, ?_⟩
  have hfr2 : ∀ it ∈ parsed.items,
      articleExists (updateFeedRow db feedID (successTransition env.now parsed))
        feedID it.link = false := by
    intro it hmem
    rw [articleExists_congr _ db _ _ (updateFeedRow_articles db feedID _)]
    exact hfresh it hmem
  rw [ingestAll_length env feedID parsed.items _ hnd hfr2]
  rw [updateFeedRow_articles]

/-- Witness for C5: the ten-entry document with entry five failing yields
nine persisted articles and an ok refresh. -/
theorem C5_witness :
    (parsedDoc10.items.map Item.link).Nodup ∧
    (∀ it ∈ parsedDoc10.items, articleExists dbC 1 it.link = false) ∧
    (RefreshFeed envTenC dbC 1).2 = .ok () ∧
    (RefreshFeed envTenC dbC 1).1.articles.length
      = dbC.articles.length
        + (parsedDoc10.items.filter (fun it => !envTenC.insertFails 1 it)).length ∧
    (parsedDoc10.items.filter (fun it => !envTenC.insertFails 1 it)).length = 9 ∧
    parsedDoc10.items.length = 10 ∧
    dbC.articles.length = 0 :=
  ⟨by decide, by decide,
   (C5_partial_failure_isolation envTenC dbC 1 feedC parsedDoc10 rfl rfl
     (by decide) (by decide)).1,
   (C5_partial_failure_isolation envTenC dbC 1 feedC parsedDoc10 rfl rfl
     (by decide) (by decide)).2,
   by decide, rfl, rfl⟩

/-- Claim C2: entry ingestion is idempotent on the dedup key.  An entry
whose (feed, link) key already has a persisted article is skipped without
error and without touching the store; with no storage failures, refreshing
the same feed twice with an unchanged document leaves the article list
identical (every existing row, including its read/saved flags, untouched),
and a second fetch carrying one fresh link appends exactly one new row. -/
theorem C2_dedup_idempotence (env env2 : Env) (db : DBState) (feedID : Nat)
    (feed : Feed) (parsed : ParsedFeed) (newIt : Item) (it : Item) :
    (articleExists db feedID it.link = true →
       addArticle env db feedID it = (db, .ok ())) ∧
    (GetFeedByID db feedID = some feed → env.fetch feed.url = .ok parsed →
     (∀ i : Item, env.insertFails feedID i = false) →
     ((RefreshFeed env (RefreshFeed env db feedID).1 feedID).1).articles
        = ((RefreshFeed env db feedID).1).articles) ∧
    (GetFeedByID db feedID = some feed → env.fetch feed.url = .ok parsed →
     (∀ i : Item, env.insertFails feedID i = false) →
     env2.fetch feed.url = .ok { parsed with items := parsed.items ++ [newIt] } →
     (∀ i : Item, env2.insertFails feedID i = false) →
     articleExists (RefreshFeed env db feedID).1 feedID newIt.link = false →
     ∃ row,
       ((RefreshFeed env2 (RefreshFeed env db feedID).1 feedID).1).articles
          = ((RefreshFeed env db feedID).1).articles ++ [row] ∧
       row.feedID = feedID ∧ row.url = newIt.link ∧
       row.read = false ∧ row.saved = false) := by
  refine ⟨?_, ?_, ?_⟩
  · exact addArticle_skip env db feedID it
  · intro hfind hfetch hins
    have heq1 := RefreshFeed_ok_eq env db feedID feed parsed hfind hfetch
    have g1 : GetFeedByID (RefreshFeed env db feedID).1 feedID
        = some (successTransition env.now parsed feed) :=
      GetFeedByID_after_ok env db feedID feed parsed hfind hfetch
    have heq2 := RefreshFeed_ok_eq env (RefreshFeed env db feedID).1 feedID
      (successTransition env.now parsed feed) parsed g1 hfetch
    rw [heq2]
    have hall : ∀ i ∈ parsed.items,
        articleExists
          (updateFeedRow (RefreshFeed env db feedID).1 feedID
            (successTransition env.now parsed)) feedID i.link = true := by
      intro i hmem
      rw [articleExists_congr _ (RefreshFeed env db feedID).1 _ _
        (updateFeedRow_articles _ feedID _)]
      rw [heq1]
      exact ingestAll_all_links env feedID hins parsed.items _ i hmem
    rw [ingestAll_noop env _ feedID parsed.items hall]
    exact updateFeedRow_articles _ feedID _
  · intro hfind hfetch hins hfetch2 hins2 hfresh
    have heq1 := RefreshFeed_ok_eq env db feedID feed parsed hfind hfetch
    have g1 : GetFeedByID (RefreshFeed env db feedID).1 feedID
        = some (successTransition env.now parsed feed) :=
      GetFeedByID_after_ok env db feedID feed parsed hfind hfetch
    have heq2 := RefreshFeed_ok_eq env2 (RefreshFeed env db feedID).1 feedID
      (successTransition env.now parsed feed)
      { parsed with items := parsed.items ++ [newIt] } g1 hfetch2
    rw [heq2]
    have hall : ∀ i ∈ parsed.items,
        articleExists
          (updateFeedRow (RefreshFeed env db feedID).1 feedID
            (successTransition env2.now { parsed with items := parsed.items ++ [newIt] }))
          feedID i.link = true := by
      intro i hmem
      rw [articleExists_congr _ (RefreshFeed env db feedID).1 _ _
        (updateFeedRow_articles _ feedID _)]
      rw [heq1]
      exact ingestAll_all_links env feedID hins parsed.items _ i hmem
    have hexn : articleExists
        (updateFeedRow (RefreshFeed env db feedID).1 feedID
          (successTransition env2.now { parsed with items := parsed.items ++ [newIt] }))
        feedID newIt.link = false := by
      rw [articleExists_congr _ (RefreshFeed env db feedID).1 _ _
        (updateFeedRow_articles _ feedID _)]
      exact hfresh
    rw [show ({ parsed with items := parsed.items ++ [newIt] } : ParsedFeed).items
        = parsed.items ++ [newIt] from rfl]
    rw [ingestAll_append env2 feedID parsed.items [newIt] _]
    rw [ingestAll_noop env2 _ feedID parsed.items hall]
    simp only [ingestAll]
    rw [addArticle_fresh_eq env2 _ feedID newIt hexn (hins2 newIt)]
    refine ⟨mkArticle env2
      (updateFeedRow (RefreshFeed env db feedID).1 feedID
        (successTransition env2.now { parsed with items := parsed.items ++ [newIt] }))
      feedID newIt, ?_, rfl, rfl, rfl, rfl⟩
    rw [show ∀ (d : DBState) (a : Article),
        ({ d with articles := d.articles ++ [a],
                  nextArticleID := d.nextArticleID + 1 } : DBState).articles
          = d.articles ++ [a] from fun d a => rfl]
    rw [updateFeedRow_articles]

/-- Witness for C2: refreshing the concrete feed twice with the same
three-entry document keeps the article list identical, and a second fetch
with one extra link appends exactly one row. -/
theorem C2_witness :
    articleExists (RefreshFeed envOkC dbC 1).1 1 itemA.link = true ∧
    addArticle envOkC (RefreshFeed envOkC dbC 1).1 1 itemA
      = ((RefreshFeed envOkC dbC 1).1, .ok ()) ∧
    ((RefreshFeed envOkC (RefreshFeed envOkC dbC 1).1 1).1).articles
      = ((RefreshFeed envOkC dbC 1).1).articles ∧
    (∃ row,
      ((RefreshFeed envPlusC (RefreshFeed envOkC dbC 1).1 1).1).articles
        = ((RefreshFeed envOkC dbC 1).1).articles ++ [row] ∧
      row.feedID = 1 ∧ row.url = itemNew.link ∧
      row.read = false ∧ row.saved = false) :=
  ⟨by decide,
   (C2_dedup_idempotence envOkC envPlusC (RefreshFeed envOkC dbC 1).1 1 feedC
     parsedDoc itemNew itemA).1 (by decide),
   (C2_dedup_idempotence envOkC envPlusC dbC 1 feedC parsedDoc itemNew itemA).2.1
     rfl rfl (fun i => rfl),
   (C2_dedup_idempotence envOkC envPlusC dbC 1 feedC parsedDoc itemNew itemA).2.2
     rfl rfl (fun i => rfl) rfl (fun i => rfl) (by decide)⟩

/-- Claim C6 (amended): the resolver returns its input unchanged and without
error in exactly two cases — the input contains a feed/RSS/Atom marker
token (no platform conversion is attempted even for platform URLs), or the
input contains neither a marker token nor a platform domain token
(youtube.com or youtu.be); for marker-free inputs containing a platform
domain token the resolver instead runs the platform conversion, which
never returns the input unchanged. -/
theorem C6_resolver_passthrough (env : Env) (url : Str) :
    convertToRSSURL env url = .ok url ↔
      (hasMarkerToken url = true ∨
       (hasMarkerToken url = false ∧ isYouTubeURL url = false)) := by
  constructor
  · intro h
    cases hm : hasMarkerToken url with
    | true => exact Or.inl rfl
    | false =>
      cases hy : isYouTubeURL url with
      | false => exact Or.inr ⟨rfl, rfl⟩
      | true =>
        exfalso
        unfold convertToRSSURL at h
        simp only [hm, hy, Bool.false_eq_true, if_false, if_true] at h
        rcases convertYT_ok_shape env url url h with ⟨cid, hcid⟩
        rw [hcid, hasMarkerToken_ytBase cid] at hm
        exact Bool.noConfusion hm
  · intro h
    rcases h with hm | ⟨hm, hy⟩
    · simp [convertToRSSURL, hm]
    · simp [convertToRSSURL, hm, hy]

/-- Counterexample to claim C6 as stated: a platform URL that contains no
marker token and matches none of the four channel/profile/handle shapes is
not returned unchanged — the resolver fails on it with the unsupported-
format error. -/
theorem C6_counterexample :
    hasMarkerToken watchURL = false ∧
    isYouTubeURL watchURL = true ∧
    matchesYTShape watchURL = false ∧
    convertToRSSURL envFailC watchURL
      = .error ("unsupported YouTube URL format: ".data ++ watchURL) :=
  ⟨rfl, rfl, rfl, rfl⟩

/-- Witness for C6 at a concrete marker-token URL. -/
theorem C6_witness :
    convertToRSSURL envFailC ("https://e.com/feed.xml".data)
      = .ok ("https://e.com/feed.xml".data) :=
  (C6_resolver_passthrough envFailC ("https://e.com/feed.xml".data)).mpr
    (Or.inl rfl)

/-- Claim C7: channel-page scraping only ever yields an identifier of the
expected shape (UC plus 22 characters, 24 in total); a page-fetch error, a
non-200 status, or the absence of a validly-shaped capture each make the
scrape fail with an error, and every scrape-derived feed endpoint embeds a
validly-shaped identifier. -/
theorem C7_scrape_identifier_validation (env : Env) (url : Str) :
    (∀ cid, getYouTubeChannelID env url = .ok cid → isValidChannelID cid = true) ∧
    (∀ e, env.pageGet url = .error e →
       getYouTubeChannelID env url
         = .error ("failed to fetch channel page: ".data ++ e)) ∧
    (∀ status body, env.pageGet url = .ok (status, body) → status ≠ 200 →
       getYouTubeChannelID env url
         = .error ("channel page returned non-OK status".data)) ∧
    (∀ body, env.pageGet url = .ok (200, body) → extractChannelID body = none →
       getYouTubeChannelID env url
         = .error ("could not find channel ID for ".data ++ url)) ∧
    (∀ out, findCaptureL ("youtube.com/channel/".data) [] url = none →
       convertYouTubeToRSS env url = .ok out →
       ∃ cid, isValidChannelID cid = true ∧ out = ytFeedBase ++ cid) := by
  refine ⟨fun cid h => getYTChannelID_ok_valid env url cid h,
    fun e h => getYTChannelID_fetch_error env url e h,
    fun status body h hs => getYTChannelID_bad_status env url status body h hs,
    fun body h he => getYTChannelID_no_match env url body h he, ?_⟩
  intro out hch hok
  unfold convertYouTubeToRSS at hok
  simp only [hch] at hok
  split at hok
  · split at hok
    · rename_i name hname cid heq
      injection hok with h2
      exact ⟨cid, getYTChannelID_ok_valid env _ cid heq, h2.symm⟩
    · exact absurd hok (by simp)
  · split at hok
    · split at hok
      · rename_i name hname cid heq
        injection hok with h2
        exact ⟨cid, getYTChannelID_ok_valid env _ cid heq, h2.symm⟩
      · exact absurd hok (by simp)
    · split at hok
      · split at hok
        · rename_i name hname cid heq
          injection hok with h2
          exact ⟨cid, getYTChannelID_ok_valid env _ cid heq, h2.symm⟩
        · exact absurd hok (by simp)
      · exact absurd hok (by simp)

/-- Witness for C7: a concrete page body yields the valid 24-character
identifier and the feed endpoint embedding it; a body with no matching
pattern makes the scrape fail. -/
theorem C7_witness :
    isValidChannelID cidC = true ∧
    getYouTubeChannelID envPageC handleURL = .ok cidC ∧
    getYouTubeChannelID envPageBadC handleURL
      = .error ("could not find channel ID for ".data ++ handleURL) ∧
    convertYouTubeToRSS envPageC handleURL = .ok (ytFeedBase ++ cidC) :=
  ⟨(C7_scrape_identifier_validation envPageC handleURL).1 cidC rfl,
   rfl,
   (C7_scrape_identifier_validation envPageBadC handleURL).2.2.2.1
     ("nothing to see".data) rfl rfl,
   rfl⟩
